import Mathlib

/-!
Verification of the SH1106 display driver command layer (command.rs, builder.rs).

Machine integers (`u8`) are modelled as `Nat`; every Rust `u8` left shift is
followed by `% 256`, since shifting a `u8` truncates the result to 8 bits.
Bus writes are modelled by state passing: a transport is a function
`σ → List Nat → σ × Option DisplayError` where `none` is `Ok(())` and
`some e` is `Err(e)`. A Rust panic (the `unreachable!()` arm of
`Page::from`) is modelled as `Option.none`.
-/

/-- Transport error of the external display interface crate (spec §7 treats it
as a single TransportError kind surfaced verbatim); a few representative
variants so that error pass-through is a non-trivial statement. -/
inductive DisplayError where
  | BusWriteError
  | DCError
  | OutOfBoundsError
deriving DecidableEq, Repr

/-- Display page (command.rs): enumeration of 8 values with ordinals 0-7. -/
inductive Page where
  | Page0
  | Page1
  | Page2
  | Page3
  | Page4
  | Page5
  | Page6
  | Page7
deriving DecidableEq, Repr

/-- Ordinal (Rust discriminant, `page as u8`) of a `Page`. -/
def Page.toNat : Page → Nat
  | .Page0 => 0b0000
  | .Page1 => 0b0001
  | .Page2 => 0b0010
  | .Page3 => 0b0011
  | .Page4 => 0b0100
  | .Page5 => 0b0101
  | .Page6 => 0b0110
  | .Page7 => 0b0111

/-- The `impl From<u8> for Page` in command.rs: match on `val / 8`, with the
eight literal arms `0..=7` and an `unreachable!()` catch-all modelled as
`none`. -/
def Page.fromRow (val : Nat) : Option Page :=
  match val / 8 with
  | 0 => some .Page0
  | 1 => some .Page1
  | 2 => some .Page2
  | 3 => some .Page3
  | 4 => some .Page4
  | 5 => some .Page5
  | 6 => some .Page6
  | 7 => some .Page7
  | _ => none

/-- VCOM deselect voltage levels (command.rs): 65 variants with Rust
discriminants 0x00 through 0x40. -/
inductive VcomhLevel where
  | V0430
  | V0436
  | V0442
  | V0449
  | V0455
  | V0462
  | V0468
  | V0474
  | V0481
  | V0487
  | V0494
  | V0500
  | V0506
  | V0513
  | V0519
  | V0526
  | V0532
  | V0539
  | V0545
  | V0551
  | V0558
  | V0564
  | V0571
  | V0577
  | V0583
  | V0590
  | V0596
  | V0603
  | V0609
  | V0616
  | V0622
  | V0628
  | V0635
  | V0641
  | V0648
  | V0654
  | V0660
  | V0667
  | V0673
  | V0680
  | V0686
  | V0693
  | V0699
  | V0705
  | V0712
  | V0718
  | V0725
  | V0731
  | V0737
  | V0744
  | V0750
  | V0757
  | V0763
  | V0769
  | V0776
  | V0782
  | V0789
  | V0795
  | V0802
  | V0808
  | V0814
  | V0821
  | V0827
  | V0834
  | V1000
deriving DecidableEq, Repr

/-- Ordinal (Rust discriminant, `level as u8`) of a `VcomhLevel`,
per the explicit discriminants in command.rs (0x00 .. 0x3F, then 0x40). -/
def VcomhLevel.toNat : VcomhLevel → Nat
  | .V0430 => 0x00
  | .V0436 => 0x01
  | .V0442 => 0x02
  | .V0449 => 0x03
  | .V0455 => 0x04
  | .V0462 => 0x05
  | .V0468 => 0x06
  | .V0474 => 0x07
  | .V0481 => 0x08
  | .V0487 => 0x09
  | .V0494 => 0x0A
  | .V0500 => 0x0B
  | .V0506 => 0x0C
  | .V0513 => 0x0D
  | .V0519 => 0x0E
  | .V0526 => 0x0F
  | .V0532 => 0x10
  | .V0539 => 0x11
  | .V0545 => 0x12
  | .V0551 => 0x13
  | .V0558 => 0x14
  | .V0564 => 0x15
  | .V0571 => 0x16
  | .V0577 => 0x17
  | .V0583 => 0x18
  | .V0590 => 0x19
  | .V0596 => 0x1A
  | .V0603 => 0x1B
  | .V0609 => 0x1C
  | .V0616 => 0x1D
  | .V0622 => 0x1E
  | .V0628 => 0x1F
  | .V0635 => 0x20
  | .V0641 => 0x21
  | .V0648 => 0x22
  | .V0654 => 0x23
  | .V0660 => 0x24
  | .V0667 => 0x25
  | .V0673 => 0x26
  | .V0680 => 0x27
  | .V0686 => 0x28
  | .V0693 => 0x29
  | .V0699 => 0x2A
  | .V0705 => 0x2B
  | .V0712 => 0x2C
  | .V0718 => 0x2D
  | .V0725 => 0x2E
  | .V0731 => 0x2F
  | .V0737 => 0x30
  | .V0744 => 0x31
  | .V0750 => 0x32
  | .V0757 => 0x33
  | .V0763 => 0x34
  | .V0769 => 0x35
  | .V0776 => 0x36
  | .V0782 => 0x37
  | .V0789 => 0x38
  | .V0795 => 0x39
  | .V0802 => 0x3A
  | .V0808 => 0x3B
  | .V0814 => 0x3C
  | .V0821 => 0x3D
  | .V0827 => 0x3E
  | .V0834 => 0x3F
  | .V1000 => 0x40

/-- Pump output voltage (command.rs): 4 variants with discriminants 0-3. -/
inductive PumpVoltage where
  | V64
  | V74
  | V80
  | V90
deriving DecidableEq, Repr

/-- Ordinal (Rust discriminant, `voltage as u8`) of a `PumpVoltage`. -/
def PumpVoltage.toNat : PumpVoltage → Nat
  | .V64 => 0
  | .V74 => 1
  | .V80 => 2
  | .V90 => 3

/-- SH1106 commands (the `Command` enum of command.rs). `u8` payloads are
`Nat`, `bool` payloads are `Bool`. -/
inductive Command where
  | Contrast (val : Nat)
  | AllOn (o : Bool)
  | Invert (inv : Bool)
  | DisplayOn (o : Bool)
  | LowerColStart (addr : Nat)
  | UpperColStart (addr : Nat)
  | ColStart (addr : Nat)
  | PageStart (page : Page)
  | StartLine (line : Nat)
  | SegmentRemap (remap : Bool)
  | Multiplex (ratio : Nat)
  | ReverseComDir (rev : Bool)
  | DisplayOffset (offset : Nat)
  | ComPinConfig (alt : Bool)
  | DisplayClockDiv (fosc : Nat) (div : Nat)
  | PreChargePeriod (phase1 : Nat) (phase2 : Nat)
  | VcomhDeselect (level : VcomhLevel)
  | Noop
  | ChargePump (en : Bool)
  | SetPumpVoltage (voltage : PumpVoltage)
  | ReadModifyWriteStart
  | ReadModifyWriteEnd

/-- The private helper `Command::send_commands` of command.rs: one call to the
interface with the byte slice, tagged as command data. The interface is the
state `iface : σ` together with its write method `di`. -/
def Command.sendCommands {σ : Type} (di : σ → List Nat → σ × Option DisplayError)
    (iface : σ) (data : List Nat) : σ × Option DisplayError :=
  di iface data

/-- The blocking `Command::send` of command.rs, arm for arm. Shift results
carry `% 256` because the Rust expressions are `u8` arithmetic. -/
def Command.send {σ : Type} (c : Command)
    (di : σ → List Nat → σ × Option DisplayError) (iface : σ) :
    σ × Option DisplayError :=
  match c with
  | Command.Contrast val => Command.sendCommands di iface [0x81, val]
  | Command.AllOn o => Command.sendCommands di iface [0xA4 ||| o.toNat]
  | Command.Invert inv => Command.sendCommands di iface [0xA6 ||| inv.toNat]
  | Command.DisplayOn o => Command.sendCommands di iface [0xAE ||| o.toNat]
  | Command.LowerColStart addr => Command.sendCommands di iface [0xF &&& addr]
  | Command.UpperColStart addr => Command.sendCommands di iface [0x10 ||| (0xF &&& addr)]
  | Command.ColStart addr =>
      Command.sendCommands di iface [0xF &&& addr, 0x10 ||| (0xF &&& (addr >>> 4))]
  | Command.PageStart page => Command.sendCommands di iface [0xB0 ||| page.toNat]
  | Command.StartLine line => Command.sendCommands di iface [0x40 ||| (0x3F &&& line)]
  | Command.SegmentRemap remap => Command.sendCommands di iface [0xA0 ||| remap.toNat]
  | Command.Multiplex ratio => Command.sendCommands di iface [0xA8, ratio]
  | Command.ReverseComDir rev =>
      Command.sendCommands di iface [0xC0 ||| ((rev.toNat <<< 3) % 256)]
  | Command.DisplayOffset offset => Command.sendCommands di iface [0xD3, offset]
  | Command.ComPinConfig alt =>
      Command.sendCommands di iface [0xDA, 0x2 ||| ((alt.toNat <<< 4) % 256)]
  | Command.DisplayClockDiv fosc div =>
      Command.sendCommands di iface [0xD5, (((0xF &&& fosc) <<< 4) % 256) ||| (0xF &&& div)]
  | Command.PreChargePeriod phase1 phase2 =>
      Command.sendCommands di iface [0xD9, (((0xF &&& phase2) <<< 4) % 256) ||| (0xF &&& phase1)]
  | Command.VcomhDeselect level =>
      Command.sendCommands di iface [0xDB, (level.toNat <<< 4) % 256]
  | Command.Noop => Command.sendCommands di iface [0xE3]
  | Command.ChargePump en => Command.sendCommands di iface [0xAD, 0x8A ||| en.toNat]
  | Command.SetPumpVoltage voltage => Command.sendCommands di iface [0x30 ||| voltage.toNat]
  | Command.ReadModifyWriteStart => Command.sendCommands di iface [0xE0]
  | Command.ReadModifyWriteEnd => Command.sendCommands di iface [0xEE]

/-- Modelled from the spec: the suspending `send` variant. The source
generates it from the same item via the `maybe_async_cfg::maybe` attribute
(command.rs lines 10 and 80-86), so its body is not literal source text;
spec §4.2 requires a suspending shape over the identical encoding logic, and
in this pure embedding suspension has no observable content beyond the bytes
written, so the variant is the same state-passing function, transcribed
independently arm for arm. -/
def Command.sendAsync {σ : Type} (c : Command)
    (di : σ → List Nat → σ × Option DisplayError) (iface : σ) :
    σ × Option DisplayError :=
  match c with
  | Command.Contrast val => Command.sendCommands di iface [0x81, val]
  | Command.AllOn o => Command.sendCommands di iface [0xA4 ||| o.toNat]
  | Command.Invert inv => Command.sendCommands di iface [0xA6 ||| inv.toNat]
  | Command.DisplayOn o => Command.sendCommands di iface [0xAE ||| o.toNat]
  | Command.LowerColStart addr => Command.sendCommands di iface [0xF &&& addr]
  | Command.UpperColStart addr => Command.sendCommands di iface [0x10 ||| (0xF &&& addr)]
  | Command.ColStart addr =>
      Command.sendCommands di iface [0xF &&& addr, 0x10 ||| (0xF &&& (addr >>> 4))]
  | Command.PageStart page => Command.sendCommands di iface [0xB0 ||| page.toNat]
  | Command.StartLine line => Command.sendCommands di iface [0x40 ||| (0x3F &&& line)]
  | Command.SegmentRemap remap => Command.sendCommands di iface [0xA0 ||| remap.toNat]
  | Command.Multiplex ratio => Command.sendCommands di iface [0xA8, ratio]
  | Command.ReverseComDir rev =>
      Command.sendCommands di iface [0xC0 ||| ((rev.toNat <<< 3) % 256)]
  | Command.DisplayOffset offset => Command.sendCommands di iface [0xD3, offset]
  | Command.ComPinConfig alt =>
      Command.sendCommands di iface [0xDA, 0x2 ||| ((alt.toNat <<< 4) % 256)]
  | Command.DisplayClockDiv fosc div =>
      Command.sendCommands di iface [0xD5, (((0xF &&& fosc) <<< 4) % 256) ||| (0xF &&& div)]
  | Command.PreChargePeriod phase1 phase2 =>
      Command.sendCommands di iface [0xD9, (((0xF &&& phase2) <<< 4) % 256) ||| (0xF &&& phase1)]
  | Command.VcomhDeselect level =>
      Command.sendCommands di iface [0xDB, (level.toNat <<< 4) % 256]
  | Command.Noop => Command.sendCommands di iface [0xE3]
  | Command.ChargePump en => Command.sendCommands di iface [0xAD, 0x8A ||| en.toNat]
  | Command.SetPumpVoltage voltage => Command.sendCommands di iface [0x30 ||| voltage.toNat]
  | Command.ReadModifyWriteStart => Command.sendCommands di iface [0xE0]
  | Command.ReadModifyWriteEnd => Command.sendCommands di iface [0xEE]

/-- Modelled from the spec: the encoding table of spec §4.1, written with the
operand order and masks of the table. Used as the specification side of the
refinement theorems; `Command.send` above is the source side. -/
def specEncode : Command → List Nat
  | Command.Contrast v => [0x81, v]
  | Command.AllOn o => [0xA4 ||| o.toNat]
  | Command.Invert o => [0xA6 ||| o.toNat]
  | Command.DisplayOn o => [0xAE ||| o.toNat]
  | Command.LowerColStart a => [a &&& 0xF]
  | Command.UpperColStart a => [0x10 ||| (a &&& 0xF)]
  | Command.ColStart a => [a &&& 0xF, 0x10 ||| ((a >>> 4) &&& 0xF)]
  | Command.PageStart p => [0xB0 ||| p.toNat]
  | Command.StartLine l => [0x40 ||| (l &&& 0x3F)]
  | Command.SegmentRemap b => [0xA0 ||| b.toNat]
  | Command.Multiplex r => [0xA8, r]
  | Command.ReverseComDir b => [0xC0 ||| ((b.toNat <<< 3) % 256)]
  | Command.DisplayOffset o => [0xD3, o]
  | Command.ComPinConfig alt => [0xDA, 0x02 ||| ((alt.toNat <<< 4) % 256)]
  | Command.DisplayClockDiv f d => [0xD5, (((f &&& 0xF) <<< 4) % 256) ||| (d &&& 0xF)]
  | Command.PreChargePeriod p1 p2 => [0xD9, (((p2 &&& 0xF) <<< 4) % 256) ||| (p1 &&& 0xF)]
  | Command.VcomhDeselect level => [0xDB, (level.toNat <<< 4) % 256]
  | Command.Noop => [0xE3]
  | Command.ChargePump en => [0xAD, 0x8A ||| en.toNat]
  | Command.SetPumpVoltage v => [0x30 ||| v.toNat]
  | Command.ReadModifyWriteStart => [0xE0]
  | Command.ReadModifyWriteEnd => [0xEE]

/-- A transcript transport: the state records every write call in order, and
every write succeeds. -/
def logWrite (s : List (List Nat)) (d : List Nat) :
    List (List Nat) × Option DisplayError :=
  (s ++ [d], none)

/-- A transcript transport whose verdict on each write is given by `behave`:
the state still records every write call in order. -/
def logWriteWith (behave : List Nat → Option DisplayError)
    (s : List (List Nat)) (d : List Nat) :
    List (List Nat) × Option DisplayError :=
  (s ++ [d], behave d)

/-- Display geometry. Modelled from the spec: displaysize.rs is not under
src/; spec §3 describes it as a width × height class from a small fixed set
with default 128×64, and builder.rs names the variant `Display128x64`. Extra
variants stand in for the rest of the fixed set; no claim depends on which
they are. -/
inductive DisplaySize where
  | Display128x64
  | Display128x32
  | Display96x16
  | Display72x40
  | Display64x48
deriving DecidableEq, Repr

/-- The `Builder` of builder.rs: holds exactly one field, the chosen display
geometry. -/
structure Builder where
  display_size : DisplaySize
deriving DecidableEq, Repr

/-- `Builder::new` of builder.rs: default size 128 x 64. -/
def Builder.new : Builder :=
  { display_size := DisplaySize.Display128x64 }

/-- `Builder::with_size` of builder.rs: builds a new `Builder` from the given
size, ignoring the receiver's stored size. -/
def Builder.with_size (_self : Builder) (display_size : DisplaySize) : Builder :=
  { display_size }

/-- C1: for every `Command` variant, sending passes to the interface exactly
the byte sequence of the spec §4.1 encoding table, in one call and
deterministically; in particular `Contrast(0x42)` writes `[0x81, 0x42]`,
`PageStart(Page5)` writes `[0xB5]`, and `ColStart(0x1A)` writes
`[0x0A, 0x11]` in that order. -/
theorem send_matches_spec_table :
    (∀ (σ : Type) (di : σ → List Nat → σ × Option DisplayError) (s : σ) (c : Command),
      Command.send c di s = di s (specEncode c)) ∧
    Command.send (Command.Contrast 0x42) logWrite [] = ([[0x81, 0x42]], none) ∧
    Command.send (Command.PageStart Page.Page5) logWrite [] = ([[0xB5]], none) ∧
    Command.send (Command.ColStart 0x1A) logWrite [] = ([[0x0A, 0x11]], none) := by
  refine ⟨?_, rfl, rfl, rfl⟩
  intro σ di s c
  cases c <;> simp [Command.send, Command.sendCommands, specEncode, Nat.land_comm]

/-- C2: the blocking and the suspending `send` variants produce byte-for-byte
identical output for every `Command` value when driven against the same
transport. -/
theorem blocking_async_send_agree :
    ∀ (σ : Type) (di : σ → List Nat → σ × Option DisplayError) (iface : σ) (c : Command),
      Command.send c di iface = Command.sendAsync c di iface := by
  intro σ di iface c
  cases c <;> rfl

/-- C3: for every `Command` value and every transport behaviour, `send` makes
exactly one write call, carrying the complete encoded byte sequence, and
returns the transport verdict on that one write unchanged — a failing
transport yields the error with no retry, no further writes, and no
partially written opcode in the transcript. -/
theorem send_single_write_error_passthrough :
    ∀ (c : Command) (behave : List Nat → Option DisplayError),
      Command.send c (logWriteWith behave) [] = ([specEncode c], behave (specEncode c)) := by
  intro c behave
  cases c <;>
    simp [Command.send, Command.sendCommands, logWriteWith, specEncode, Nat.land_comm]

/-- C4: for every row below 64, converting the row to a `Page` and taking its
ordinal equals row / 8. -/
theorem page_from_row_div8 :
    ∀ row : Nat, row < 64 → (Page.fromRow row).map Page.toNat = some (row / 8) := by
  decide

/-- Witness for C4 at row 37, which maps to `Page4` (ordinal 37 / 8 = 4). -/
theorem page_from_row_div8_witness :
    (Page.fromRow 37).map Page.toNat = some (37 / 8) :=
  page_from_row_div8 37 (by decide)

set_option synthInstance.maxSize 1024 in
set_option maxRecDepth 4096 in
/-- C5: `PreChargePeriod(p1, p2)` emits second byte
`((p2 & 0xF) << 4) | (p1 & 0xF)` after the opcode 0xD9 — the second
parameter occupies the high nibble — and for valid (1..15), distinct
arguments, swapping the two arguments changes the output. -/
theorem precharge_byte_order :
    (∀ (σ : Type) (di : σ → List Nat → σ × Option DisplayError) (s : σ) (p1 p2 : Nat),
      Command.send (Command.PreChargePeriod p1 p2) di s
        = di s [0xD9, (((p2 &&& 0xF) <<< 4) % 256) ||| (p1 &&& 0xF)]) ∧
    (∀ p1 : Nat, p1 < 16 → ∀ p2 : Nat, p2 < 16 → 1 ≤ p1 → 1 ≤ p2 → p1 ≠ p2 →
      Command.send (Command.PreChargePeriod p1 p2) logWrite []
        ≠ Command.send (Command.PreChargePeriod p2 p1) logWrite []) := by
  constructor
  · intro σ di s p1 p2
    simp [Command.send, Command.sendCommands, Nat.land_comm]
  · decide

/-- Witness for C5 at the valid, distinct pair (2, 5): swapping the arguments
changes the transmitted bytes. -/
theorem precharge_byte_order_witness :
    Command.send (Command.PreChargePeriod 2 5) logWrite []
      ≠ Command.send (Command.PreChargePeriod 5 2) logWrite [] :=
  precharge_byte_order.2 2 (by decide) 5 (by decide) (by decide) (by decide) (by decide)

/-- C6: for every `VcomhLevel`, `VcomhDeselect(level)` writes `[0xDB, b]`
where `b` is the ordinal left-shifted by 4 bits into the register byte,
truncated to 8 bits; all ordinals lie in 0x00..0x40, and the maximum
ordinal 0x40 wraps to byte 0x00 under the 8-bit shift. -/
theorem vcomh_deselect_encoding :
    (∀ (σ : Type) (di : σ → List Nat → σ × Option DisplayError) (s : σ) (level : VcomhLevel),
      Command.send (Command.VcomhDeselect level) di s
        = di s [0xDB, (level.toNat <<< 4) % 256]) ∧
    (∀ level : VcomhLevel, level.toNat ≤ 0x40) ∧
    Command.send (Command.VcomhDeselect VcomhLevel.V1000) logWrite []
      = ([[0xDB, 0x00]], none) := by
  refine ⟨?_, ?_, by decide⟩
  · intro σ di s level
    rfl
  · intro level
    cases level <;> decide

/-- C7: the `StartLine` encoding is total on every payload with no failure
path — the payload is masked to 6 bits, `0x40 | (v & 0x3F)` — and in
particular `StartLine(0xFF)` writes the single byte 0x7F. -/
theorem start_line_total_masking :
    (∀ (σ : Type) (di : σ → List Nat → σ × Option DisplayError) (s : σ) (v : Nat),
      Command.send (Command.StartLine v) di s = di s [0x40 ||| (v &&& 0x3F)]) ∧
    Command.send (Command.StartLine 0xFF) logWrite [] = ([[0x7F]], none) := by
  refine ⟨?_, by decide⟩
  intro σ di s v
  simp [Command.send, Command.sendCommands, Nat.land_comm]

/-- C8: `with_size` is a pure replacement — re-specializing a builder
overwrites the previous size, and the result depends only on the argument,
never on the receiver. -/
theorem with_size_replacement :
    (∀ X Y : DisplaySize,
      (Builder.new.with_size X).with_size Y = Builder.new.with_size Y) ∧
    (∀ (b : Builder) (s : DisplaySize), b.with_size s = { display_size := s }) :=
  ⟨fun _ _ => rfl, fun _ _ => rfl⟩

set_option maxRecDepth 4096 in
/-- C10: for every `u8` row value of 64 or more, `Page::from` reaches the
`unreachable!()` branch (modelled as `none`) instead of returning a page. -/
theorem page_from_unreachable_ge64 :
    ∀ v : Nat, v < 256 → 64 ≤ v → Page.fromRow v = none := by
  decide

/-- Witness for C10 at row 100: no page is produced. -/
theorem page_from_unreachable_ge64_witness : Page.fromRow 100 = none :=
  page_from_unreachable_ge64 100 (by decide) (by decide)
